import Mathlib

/-!
Verification of the courtroom-debate turn-orchestration engine
(`src/state.py`, `src/agent.py`, `src/workflow.py`,
`src/services/court_service.py`).

The repository drives a fixed-topology workflow over a shared `CourtState`:
`debate_start → plaintiff_statement → defendant_reply → judge_summary →
plaintiff_argue → defendant_argue → judge_should_continue →
{judge_summary | judge_verdict}`.  A session (`CourtSession`) owns one
workflow thread, can suspend awaiting a human contribution, and is resumed
by `submit_human_input`.

Phase strings (spec §3 name ↔ code string):
Preparing = "准备阶段", Opening = "开庭阶段",
CrossExamination = "交叉质证", Closing/Ended = "休庭小结".
Role strings: Judge = "法官", Plaintiff = "原告律师", Defendant = "被告律师".
-/

namespace Courtroom

/-- Transcript entries, mirroring the two message shapes used by the code:
`ChatMessage(content, name, role)` for generated turns and
`HumanMessage(content, name)` for human turns.  The `name` is optional
because `judge_verdict`'s generated branch builds a `ChatMessage` without a
`name` argument (agent.py line 92). -/
inductive Message where
  | chat (content : String) (name : Option String) (role : String)
  | human (content : String) (name : Option String)
deriving Repr, DecidableEq

/-- Provenance of a transcript entry (spec §3 `origin`): `ChatMessage`
carries generated text, `HumanMessage` carries human text. -/
inductive Origin where
  | generated
  | human
deriving Repr, DecidableEq

def Message.origin : Message → Origin
  | .chat _ _ _ => .generated
  | .human _ _ => .human

def Message.content : Message → String
  | .chat c _ _ => c
  | .human c _ => c

def Message.name : Message → Option String
  | .chat _ n _ => n
  | .human _ n => n

/-- One evidence record (`state.py`): the code wraps the content string in a
`HumanMessage`; only the string matters here. -/
structure Evidence where
  speaker : String
  content : String
deriving Repr, DecidableEq

/-- The single mutable record driving the workflow (`CourtState` in
`state.py`).  `messages` and `case_evidence` are append-only channels
(`add_messages`); the other fields are last-value channels. -/
structure CourtState where
  case_info : String
  case_evidence : List Evidence
  phase : String
  messages : List Message
  speaker : String
  human_role : Option String
  rounds : Nat
deriving Repr, DecidableEq

/-- Modelled from the spec: the text-generation interface (§6) is consumed,
not built, by this repository, and the system-instruction templates it is
called with live in `src/prompt.py`, which is absent from the sources
(`agent.py` does `from src.prompt import *`).  Each field stands for one
`model.invoke([SystemMessage(instruction)] + transcript)` call site with its
node-specific instruction; `genDecision` stands for
`judge_prompt.format(messages=content)` followed by `invoke`, so it takes
the formatted transcript string. -/
structure Oracle where
  genSummary : List Message → String
  genVerdict : List Message → String
  genStatement : List Message → String
  genArguePl : List Message → String
  genArgueDe : List Message → String
  genDemurrer : List Message → String
  genDecision : String → String

/-- An agent instance: the `judge` / `plaintiff` / `defendant` classes in
`agent.py` each hold a `name` and a `role`. -/
structure Agent where
  name : String
  role : String
deriving Repr, DecidableEq

/-- The `f"{self.name}({self.role})"` tag used as the message `name`. -/
def Agent.tag (a : Agent) : String := a.name ++ "(" ++ a.role ++ ")"

/-- Result of running one node body: either a (merged) new state, or a
suspension produced by `interrupt(prompt)` awaiting human input.  A node is
run with `resume = some c` when langgraph re-enters it with
`Command(resume=c)`: the `interrupt` call then returns `c` instead of
suspending. -/
inductive NodeResult where
  | next (s : CourtState)
  | suspend (prompt : String)
deriving Repr, DecidableEq

/-- Stands for Python's `str()` of the evidence list interpolated into the
opening announcement f-string; its exact shape is irrelevant to every
property proved below. -/
def evidenceRepr (evs : List Evidence) : String :=
  String.intercalate "；" (evs.map (fun ev => ev.speaker ++ ":" ++ ev.content))

/-- `judge.debate_start` (agent.py lines 20-29): announces the debate,
hands the floor to the plaintiff.  Note: unlike every other handler it has
no `speaker` guard and no human branch. -/
def judge.debate_start (j : Agent) (s : CourtState) : CourtState :=
  { s with
    phase := "开庭阶段"
    messages := s.messages ++
      [Message.chat
        ("现在开始法庭辩论，请原告方进行陈述。\n案件信息：" ++ s.case_info ++
          "\n初步证据提交：" ++ evidenceRepr s.case_evidence)
        (some j.tag) "assistant"]
    speaker := "原告律师"
    rounds := 0 }

/-- `judge.judge_summary` (agent.py lines 31-51). -/
def judge.judge_summary (j : Agent) (g : Oracle) (resume : Option String)
    (s : CourtState) : NodeResult :=
  if s.speaker ≠ "法官" then .next s
  else if s.human_role = some "法官" then
    match resume with
    | none => .suspend "现在请你仔细阅读双方的发言，归纳双方的争议焦点，引导双方就焦点进行辩论"
    | some u => .next { s with
        messages := s.messages ++ [Message.human u (some j.tag)]
        speaker := "原告律师"
        phase := "交叉质证" }
  else
    .next { s with
      messages := s.messages ++
        [Message.chat (g.genSummary s.messages) (some j.tag) "assistant"]
      speaker := "原告律师"
      phase := "交叉质证" }

/-- The transcript line `f"{msg.name.upper()}: {msg.content}"` used by the
round controller (agent.py line 64); every message reaching it carries a
`name`, so the `none` default is never exercised there. -/
def msgLine (m : Message) : String :=
  (m.name.getD "").toUpper ++ ": " ++ m.content

/-- The `"\n".join(...)` formatting of the transcript (agent.py lines 63-65). -/
def formatMessages (ms : List Message) : String :=
  String.intercalate "\n" (ms.map msgLine)

/-- Python's str.lower(), embedded per character (for the ASCII tokens the
round controller compares against, this is exactly str.lower()). -/
def pyLower (s : String) : String := String.mk (s.data.map Char.toLower)

/-- Python's str.strip(): drop whitespace from both ends. -/
def pyStrip (s : String) : String :=
  String.mk
    (((s.data.dropWhile Char.isWhitespace).reverse.dropWhile
        Char.isWhitespace).reverse)

/-- The fallback normalisation at agent.py lines 70-72:
`decision = response.content.strip().lower()`, and any token other than
`continue` / `end` falls back to `continue`. -/
def sanitizeDecision (r : String) : String :=
  let decision := pyLower (pyStrip r)
  if decision ∉ (["continue", "end"] : List String) then "continue" else decision

/-- `judge.judge_should_continue` (agent.py lines 53-74), the routing
function of the single conditional edge.  It increments `rounds`, forces
`"end"` at the hard cap of 3, and otherwise asks the generation interface
and sanitises the answer.  Modelled from the spec: the Workflow Graph
Executor that runs this router is the external langgraph library, not part
of the sources; per spec §3/§4.3 (`roundCount` is "incremented exactly once
per pass through the Round Controller") the router's `rounds` update is
part of the resulting Turn State, so the router returns the decision
together with the updated state, which the executor threads onward. -/
def judge.judge_should_continue (g : Oracle) (s : CourtState) :
    String × CourtState :=
  let s' := { s with rounds := s.rounds + 1 }
  if 3 ≤ s'.rounds then ("end", s')
  else
    let content := formatMessages s'.messages
    (sanitizeDecision (g.genDecision content), s')

/-- `judge.judge_verdict` (agent.py lines 76-94).  The generated branch
builds a `ChatMessage` with a `role` tag instead of a `name` and without
wrapping it in a list (the shape defect noted in spec §9); `add_messages`
still appends exactly that one message. -/
def judge.judge_verdict (j : Agent) (g : Oracle) (resume : Option String)
    (s : CourtState) : NodeResult :=
  if s.speaker ≠ "法官" then .next s
  else if s.human_role = some "法官" then
    match resume with
    | none => .suspend "既然双方辩论已经充分，请你宣布审判结果"
    | some u => .next { s with
        messages := s.messages ++ [Message.human u (some j.tag)]
        phase := "休庭小结" }
  else
    .next { s with
      messages := s.messages ++ [Message.chat (g.genVerdict s.messages) none j.tag]
      phase := "休庭小结" }

/-- `plaintiff.plaintiff_statement` (agent.py lines 104-123). -/
def plaintiff.plaintiff_statement (p : Agent) (g : Oracle)
    (resume : Option String) (s : CourtState) : NodeResult :=
  if s.speaker ≠ "原告律师" then .next s
  else if s.human_role = some "原告律师" then
    match resume with
    | none => .suspend "现在是开庭阶段，请你作出有力的开庭指控陈述吧！"
    | some u => .next { s with
        messages := s.messages ++ [Message.human u (some p.tag)]
        speaker := "被告律师" }
  else
    .next { s with
      messages := s.messages ++
        [Message.chat (g.genStatement s.messages) (some p.tag) "assistant"]
      speaker := "被告律师" }

/-- `plaintiff.plaintiff_argue` (agent.py lines 125-144). -/
def plaintiff.plaintiff_argue (p : Agent) (g : Oracle)
    (resume : Option String) (s : CourtState) : NodeResult :=
  if s.speaker ≠ "原告律师" then .next s
  else if s.human_role = some "原告律师" then
    match resume with
    | none => .suspend "请你根据法官总结的焦点争议，针对被告的反驳作出回应，并进一步论述自己的主张！"
    | some u => .next { s with
        messages := s.messages ++ [Message.human u (some p.tag)]
        speaker := "被告律师" }
  else
    .next { s with
      messages := s.messages ++
        [Message.chat (g.genArguePl s.messages) (some p.tag) "assistant"]
      speaker := "被告律师" }

/-- `defendant.defendant_reply` (agent.py lines 153-172). -/
def defendant.defendant_reply (d : Agent) (g : Oracle)
    (resume : Option String) (s : CourtState) : NodeResult :=
  if s.speaker ≠ "被告律师" then .next s
  else if s.human_role = some "被告律师" then
    match resume with
    | none => .suspend "现在请你就原告做出的开场陈述，进行有力的抗辩吧！"
    | some u => .next { s with
        messages := s.messages ++ [Message.human u (some d.tag)]
        speaker := "法官" }
  else
    .next { s with
      messages := s.messages ++
        [Message.chat (g.genDemurrer s.messages) (some d.tag) "assistant"]
      speaker := "法官" }

/-- `defendant.defendant_argue` (agent.py lines 174-192). -/
def defendant.defendant_argue (d : Agent) (g : Oracle)
    (resume : Option String) (s : CourtState) : NodeResult :=
  if s.speaker ≠ "被告律师" then .next s
  else if s.human_role = some "被告律师" then
    match resume with
    | none => .suspend "请你就原告的说法进一步质疑，并努力论述自己的观点"
    | some u => .next { s with
        messages := s.messages ++ [Message.human u (some d.tag)]
        speaker := "法官" }
  else
    .next { s with
      messages := s.messages ++
        [Message.chat (g.genArgueDe s.messages) (some d.tag) "assistant"]
      speaker := "法官" }

/-- The agent instances constructed in `workflow.py` lines 7-9
(`judge("A","法官")`, `plaintiff("B","原告律师")`, `defendant("C","被告律师")`). -/
def judgeA : Agent := ⟨"A", "法官"⟩

def plaintiffB : Agent := ⟨"B", "原告律师"⟩

def defendantC : Agent := ⟨"C", "被告律师"⟩

/-- The workflow's nodes (`workflow.py` lines 12-19), plus `finished` for
the thread position after the `judge_verdict → END` edge. -/
inductive Node where
  | debate_start
  | plaintiff_statement
  | plaintiff_argue
  | defendant_reply
  | defendant_argue
  | judge_summary
  | judge_should_continue
  | judge_verdict
  | finished
deriving Repr, DecidableEq

/-- Outcome of executing one node together with its outgoing edge:
suspension (the thread stays at `pending` with the state untouched), a
transition to the next node, or reaching `END`. -/
inductive StepResult where
  | suspended (prompt : String) (pending : Node) (s : CourtState)
  | stepped (next : Node) (s : CourtState)
  | finished (s : CourtState)
deriving Repr, DecidableEq

/-- Modelled from the spec: the Workflow Graph Executor (spec §4.1) is the
external langgraph library, not part of the sources; this is one superstep
over the fixed edge topology of `workflow.py` lines 21-33.  The
`judge_should_continue` node body is the identity (`lambda state: state`,
workflow.py line 18); its conditional edge evaluates the router and maps
`"end"` to `judge_verdict` and `"continue"` to `judge_summary` (the router
provably returns only these two tokens, see
`judge_should_continue_decision_closed`), threading the router's updated
Turn State per spec §4.3. -/
def step (g : Oracle) (resume : Option String) (n : Node) (s : CourtState) :
    StepResult :=
  match n with
  | .debate_start => .stepped .plaintiff_statement (judge.debate_start judgeA s)
  | .plaintiff_statement =>
      match plaintiff.plaintiff_statement plaintiffB g resume s with
      | .suspend p => .suspended p .plaintiff_statement s
      | .next s' => .stepped .defendant_reply s'
  | .defendant_reply =>
      match defendant.defendant_reply defendantC g resume s with
      | .suspend p => .suspended p .defendant_reply s
      | .next s' => .stepped .judge_summary s'
  | .judge_summary =>
      match judge.judge_summary judgeA g resume s with
      | .suspend p => .suspended p .judge_summary s
      | .next s' => .stepped .plaintiff_argue s'
  | .plaintiff_argue =>
      match plaintiff.plaintiff_argue plaintiffB g resume s with
      | .suspend p => .suspended p .plaintiff_argue s
      | .next s' => .stepped .defendant_argue s'
  | .defendant_argue =>
      match defendant.defendant_argue defendantC g resume s with
      | .suspend p => .suspended p .defendant_argue s
      | .next s' => .stepped .judge_should_continue s'
  | .judge_should_continue =>
      let r := judge.judge_should_continue g s
      .stepped (if r.1 = "end" then .judge_verdict else .judge_summary) r.2
  | .judge_verdict =>
      match judge.judge_verdict judgeA g resume s with
      | .suspend p => .suspended p .judge_verdict s
      | .next s' => .stepped .finished s'
  | .finished => .finished s

/-- Outcome of one `app.invoke` call: suspension at an `interrupt`,
completion at `END`, or langgraph's `GraphRecursionError` when the
superstep budget runs out. -/
inductive RunResult where
  | suspended (prompt : String) (pending : Node) (s : CourtState)
  | completed (s : CourtState)
  | recursionLimit (n : Node) (s : CourtState)
deriving Repr, DecidableEq

/-- Modelled from the spec: run-to-next-suspension-or-completion (spec §4.1
execution contract), as langgraph's `invoke` does, bounded by a superstep
budget.  The `resume` value is consumed by the first node executed (the
pending one); later nodes in the same call run without it. -/
def run (g : Oracle) : Nat → Option String → Node → CourtState → RunResult
  | 0, _, n, s => .recursionLimit n s
  | fuel + 1, resume, n, s =>
      match step g resume n s with
      | .suspended p pn s' => .suspended p pn s'
      | .finished s' => .completed s'
      | .stepped n' s' => run g fuel none n' s'

/-- langgraph's default `recursion_limit` of 25 supersteps, never reached
by this graph (a full 3-round debate executes 16 nodes). -/
def invoke (g : Oracle) (resume : Option String) (n : Node) (s : CourtState) :
    RunResult :=
  run g 25 resume n s

/-- A `CourtSession` (`court_service.py` lines 18-34): the session-level
record.  `pending` models the langgraph checkpoint for
`thread_id = session_id`, i.e. which node the suspended thread re-enters
(`finished` once the graph has reached `END`); `state` is the
`self.state` snapshot returned by the last `invoke`. -/
structure Session where
  human_role : Option String
  state : Option CourtState
  pending : Node
  requires_human_input : Bool
  pending_input_role : Option String
deriving Repr, DecidableEq

/-- `CourtSession.__init__` (court_service.py lines 23-34): fresh session,
no state yet, no pending input.  `human_role` holds the `CourtRole` value
string ("法官" / "原告律师" / "被告律师") or `none` for pure-AI mode. -/
def CourtSession.new (hr : Option String) : Session :=
  { human_role := hr
    state := none
    pending := .debate_start
    requires_human_input := false
    pending_input_role := none }

/-- The errors raised by the service layer (`ValueError` /
`RuntimeError` of court_service.py), named per the spec §7 taxonomy. -/
inductive CourtError where
  | awaitingHumanInput
  | notInitialized
  | invalidResumeState
  | sessionNotFound (session_id : String)
  | graphRecursionLimit
deriving Repr, DecidableEq

/-- The `initial_state` literal of `CourtSession.initialize`
(court_service.py lines 39-50). -/
def initialState (case_info : String) (case_evidence : List Evidence)
    (hr : Option String) : CourtState :=
  { case_info := case_info
    case_evidence := case_evidence
    phase := "准备阶段"
    messages := []
    speaker := ""
    human_role := hr
    rounds := 0 }

/-- `CourtSession.initialize` (court_service.py lines 36-54): builds the
initial Turn State and invokes the workflow from its entry point, which
runs until the first suspension or completion. -/
def CourtSession.initialize (g : Oracle) (sess : Session) (case_info : String)
    (case_evidence : List Evidence) : Except CourtError Session :=
  match invoke g none .debate_start
      (initialState case_info case_evidence sess.human_role) with
  | .suspended _ pn s => .ok { sess with state := some s, pending := pn }
  | .completed s => .ok { sess with state := some s, pending := .finished }
  | .recursionLimit _ _ => .error .graphRecursionLimit

/-- `CourtSession.advance_debate` (court_service.py lines 56-85).
Order of checks as in the code: pending human input, uninitialised state,
already-ended phase, then the `current_speaker != self.human_role` test
(`CourtRole` is a str-enum, so that comparison is plain string equality
against the optional human role); only in that branch is the workflow
invoked, and the human-input flags are set exactly when the post-invoke
speaker equals the human role. -/
def CourtSession.advance_debate (g : Oracle) (sess : Session) :
    Except CourtError Session :=
  if sess.requires_human_input then .error .awaitingHumanInput
  else
    match sess.state with
    | none => .error .notInitialized
    | some st =>
      if st.phase = "休庭小结" then .ok sess
      else if sess.human_role = some st.speaker then .ok sess
      else
        match invoke g none sess.pending st with
        | .suspended _ pn s' =>
            if sess.human_role = some s'.speaker then
              .ok { sess with
                state := some s'
                pending := pn
                requires_human_input := true
                pending_input_role := sess.human_role }
            else .ok { sess with state := some s', pending := pn }
        | .completed s' =>
            if sess.human_role = some s'.speaker then
              .ok { sess with
                state := some s'
                pending := .finished
                requires_human_input := true
                pending_input_role := sess.human_role }
            else .ok { sess with state := some s', pending := .finished }
        | .recursionLimit _ _ => .error .graphRecursionLimit

/-- `CourtSession.submit_human_input` (court_service.py lines 87-110):
fails unless input is pending, then resumes the checkpointed thread with
`Command(resume=content)` and clears both human-input flags together. -/
def CourtSession.submit_human_input (g : Oracle) (sess : Session)
    (content : String) : Except CourtError Session :=
  if ¬ sess.requires_human_input then .error .invalidResumeState
  else
    match sess.state with
    | none => .error .notInitialized
    | some st =>
      match invoke g (some content) sess.pending st with
      | .suspended _ pn s' =>
          .ok { sess with
            state := some s'
            pending := pn
            requires_human_input := false
            pending_input_role := none }
      | .completed s' =>
          .ok { sess with
            state := some s'
            pending := .finished
            requires_human_input := false
            pending_input_role := none }
      | .recursionLimit _ _ => .error .graphRecursionLimit

/-- `CourtService.submit_human_input` (court_service.py lines 250-273):
looks the session up in the registry and delegates to
`CourtSession.submit_human_input(content)`.  The `role` argument is
accepted but never validated or used. -/
def CourtService.submit_human_input (g : Oracle)
    (sessions : List (String × Session)) (session_id : String)
    (role : String) (content : String) : Except CourtError Session :=
  match sessions.lookup session_id with
  | none => .error (.sessionNotFound session_id)
  | some sess =>
      let _ := role
      CourtSession.submit_human_input g sess content

/-- Decidable success test for service results. -/
def isOkResult : Except CourtError Session → Bool
  | .ok _ => true
  | .error _ => false

/-- Session states reachable through the service operations, for a fixed
generation interface: a fresh session, then any sequence of successful
`initialize` / `advance_debate` / `submit_human_input` calls (a raised
error leaves the session object unchanged in the code, so only `.ok`
results produce new states). -/
inductive Reachable (g : Oracle) : Session → Prop
  | new (hr : Option String) : Reachable g (CourtSession.new hr)
  | has_init (sess : Session) (ci : String) (ev : List Evidence)
      (sess' : Session) : Reachable g sess →
      CourtSession.initialize g sess ci ev = .ok sess' → Reachable g sess'
  | has_advance (sess sess' : Session) : Reachable g sess →
      CourtSession.advance_debate g sess = .ok sess' → Reachable g sess'
  | has_submit (sess : Session) (c : String) (sess' : Session) :
      Reachable g sess →
      CourtSession.submit_human_input g sess c = .ok sess' → Reachable g sess'

/-! Concrete generation interfaces and states used to witness theorems. -/

/-- A concrete generation interface whose round-controller answer is
always the token "continue". -/
def constOracle : Oracle :=
  { genSummary := fun _ => "总结发言"
    genVerdict := fun _ => "判决书"
    genStatement := fun _ => "原告陈述"
    genArguePl := fun _ => "原告辩论"
    genArgueDe := fun _ => "被告辩论"
    genDemurrer := fun _ => "被告答辩"
    genDecision := fun _ => "continue" }

/-- A concrete generation interface whose round-controller answer is a
malformed token (neither continue nor end). -/
def malformedOracle : Oracle :=
  { constOracle with genDecision := fun _ => "Proceed with verdict!" }

/-- A concrete Turn State with the judge holding the floor and a chosen
round count. -/
def judgeTurnState (r : Nat) : CourtState :=
  { case_info := "甲向乙借款十万元"
    case_evidence := []
    phase := "交叉质证"
    messages := []
    speaker := "法官"
    human_role := none
    rounds := r }

/-! Helper lemmas about the round controller. -/

theorem sanitizeDecision_def (r : String) :
    sanitizeDecision r =
      if pyLower (pyStrip r) ∉ (["continue", "end"] : List String) then
        "continue"
      else pyLower (pyStrip r) := rfl

theorem judge_should_continue_def (g : Oracle) (s : CourtState) :
    judge.judge_should_continue g s =
      if 3 ≤ s.rounds + 1 then ("end", { s with rounds := s.rounds + 1 })
      else (sanitizeDecision (g.genDecision (formatMessages s.messages)),
            { s with rounds := s.rounds + 1 }) := rfl

theorem sanitizeDecision_closed (r : String) :
    sanitizeDecision r = "continue" ∨ sanitizeDecision r = "end" := by
  rw [sanitizeDecision_def]
  split
  · exact Or.inl rfl
  · rename_i h
    rw [not_not] at h
    simp only [List.mem_cons, List.not_mem_nil, or_false] at h
    rcases h with h | h
    · exact Or.inl h
    · exact Or.inr h

theorem judge_should_continue_decision_closed (g : Oracle) (s : CourtState) :
    (judge.judge_should_continue g s).1 = "continue" ∨
    (judge.judge_should_continue g s).1 = "end" := by
  rw [judge_should_continue_def]
  split
  · exact Or.inr rfl
  · exact sanitizeDecision_closed _

theorem judge_should_continue_rounds (g : Oracle) (s : CourtState) :
    (judge.judge_should_continue g s).2.rounds = s.rounds + 1 := by
  rw [judge_should_continue_def]
  split <;> rfl

theorem judge_should_continue_forced_end (g : Oracle) (s : CourtState)
    (h : 2 ≤ s.rounds) : (judge.judge_should_continue g s).1 = "end" := by
  rw [judge_should_continue_def, if_pos (by omega)]

theorem judge_should_continue_below_cap (g : Oracle) (s : CourtState)
    (h : s.rounds < 2) : (judge.judge_should_continue g s).1 =
      sanitizeDecision (g.genDecision (formatMessages s.messages)) := by
  rw [judge_should_continue_def, if_neg (by omega)]

/-- Claim C1: each pass through the ContinueDecision router increments
rounds by exactly one — so N consecutive passes add exactly N — and the
routing result is forced to "end" (the Verdict edge) exactly when the
incremented count first reaches the cap of 3: at 3 and beyond the decision
is "end" for every generation interface, while below the cap it is exactly
the sanitised generated decision, hence content-dependent. -/
theorem continue_decision_round_cap (g : Oracle) (s : CourtState) :
    ((judge.judge_should_continue g s).2.rounds = s.rounds + 1) ∧
    (∀ n : Nat,
      ((fun t => (judge.judge_should_continue g t).2)^[n] s).rounds =
        s.rounds + n) ∧
    (2 ≤ s.rounds → (judge.judge_should_continue g s).1 = "end") ∧
    (s.rounds < 2 → (judge.judge_should_continue g s).1 =
      sanitizeDecision (g.genDecision (formatMessages s.messages))) := by
  refine ⟨judge_should_continue_rounds g s, ?_,
    judge_should_continue_forced_end g s, judge_should_continue_below_cap g s⟩
  intro n
  induction n generalizing s with
  | zero => simp
  | succ k ih =>
      rw [Function.iterate_succ_apply, ih, judge_should_continue_rounds]
      omega

/-- Witness for C1 at concrete inputs: with the count at 2 the pass
reaches 3 and is forced to "end" even though the interface answers
"continue"; with the count at 0 the decision is the (sanitised) generated
answer. -/
theorem continue_decision_round_cap_witness :
    (judge.judge_should_continue constOracle (judgeTurnState 2)).1 = "end" ∧
    (judge.judge_should_continue constOracle (judgeTurnState 0)).1 =
      sanitizeDecision (constOracle.genDecision
        (formatMessages (judgeTurnState 0).messages)) :=
  ⟨(continue_decision_round_cap constOracle (judgeTurnState 2)).2.2.1 (by decide),
   (continue_decision_round_cap constOracle (judgeTurnState 0)).2.2.2 (by decide)⟩

/-- Claim C8: the ContinueDecision routing result is always one of the two
tokens — a malformed generated decision is absorbed locally, never
surfaced — and below the round cap any response whose trimmed, lower-cased
form is neither "continue" nor "end" yields the fail-safe decision
"continue". -/
theorem malformed_decision_absorbed (g : Oracle) (s : CourtState) :
    ((judge.judge_should_continue g s).1 = "continue" ∨
     (judge.judge_should_continue g s).1 = "end") ∧
    (s.rounds < 2 →
      pyLower (pyStrip (g.genDecision (formatMessages s.messages))) ≠ "continue" →
      pyLower (pyStrip (g.genDecision (formatMessages s.messages))) ≠ "end" →
      (judge.judge_should_continue g s).1 = "continue") := by
  refine ⟨judge_should_continue_decision_closed g s, ?_⟩
  intro hr h1 h2
  rw [judge_should_continue_below_cap g s hr, sanitizeDecision_def,
    if_pos (by simp [h1, h2])]

/-- Witness for C8: a concrete malformed answer is mapped to "continue". -/
theorem malformed_decision_absorbed_witness :
    (judge.judge_should_continue malformedOracle (judgeTurnState 0)).1 =
      "continue" :=
  (malformed_decision_absorbed malformedOracle (judgeTurnState 0)).2
    (by decide) (by decide) (by decide)

/-- Claim C3: advancing a session whose human-input flag is set always
fails with the AwaitingHumanInput error; the call raises before touching
anything, so no session value is produced and the Turn State is unchanged. -/
theorem advance_while_awaiting_input_fails (g : Oracle) (sess : Session)
    (h : sess.requires_human_input = true) :
    CourtSession.advance_debate g sess = .error .awaitingHumanInput := by
  unfold CourtSession.advance_debate
  rw [if_pos h]

/-- Witness for C3: a concrete suspended session. -/
def suspendedJudgeSession : Session :=
  { human_role := some "法官"
    state := some { judgeTurnState 0 with human_role := some "法官", phase := "开庭阶段" }
    pending := .judge_summary
    requires_human_input := true
    pending_input_role := some "法官" }

theorem advance_while_awaiting_input_fails_witness :
    CourtSession.advance_debate constOracle suspendedJudgeSession =
      .error .awaitingHumanInput :=
  advance_while_awaiting_input_fails constOracle suspendedJudgeSession (by decide)

/-- Claim C9 (amended): the six role handlers — plaintiff_statement,
plaintiff_argue, defendant_reply, defendant_argue, judge_summary,
judge_verdict — each first check that the current speaker is the role they
handle and are a no-op pass-through otherwise; the DebateStart node and the
ContinueDecision router perform no such check (see the counterexample). -/
theorem role_handlers_speaker_guard (g : Oracle) (resume : Option String)
    (s : CourtState) :
    (s.speaker ≠ "原告律师" →
      plaintiff.plaintiff_statement plaintiffB g resume s = .next s) ∧
    (s.speaker ≠ "原告律师" →
      plaintiff.plaintiff_argue plaintiffB g resume s = .next s) ∧
    (s.speaker ≠ "被告律师" →
      defendant.defendant_reply defendantC g resume s = .next s) ∧
    (s.speaker ≠ "被告律师" →
      defendant.defendant_argue defendantC g resume s = .next s) ∧
    (s.speaker ≠ "法官" → judge.judge_summary judgeA g resume s = .next s) ∧
    (s.speaker ≠ "法官" → judge.judge_verdict judgeA g resume s = .next s) := by
  refine ⟨fun h => ?_, fun h => ?_, fun h => ?_, fun h => ?_, fun h => ?_,
    fun h => ?_⟩
  · unfold plaintiff.plaintiff_statement; rw [if_pos h]
  · unfold plaintiff.plaintiff_argue; rw [if_pos h]
  · unfold defendant.defendant_reply; rw [if_pos h]
  · unfold defendant.defendant_argue; rw [if_pos h]
  · unfold judge.judge_summary; rw [if_pos h]
  · unfold judge.judge_verdict; rw [if_pos h]

/-- Witness for C9 (amended) at a concrete mismatched state. -/
theorem role_handlers_speaker_guard_witness :
    judge.judge_summary judgeA constOracle none
      { judgeTurnState 0 with speaker := "被告律师" } =
      .next { judgeTurnState 0 with speaker := "被告律师" } :=
  (role_handlers_speaker_guard constOracle none
    { judgeTurnState 0 with speaker := "被告律师" }).2.2.2.2.1 (by decide)

/-- Claim C9 counterexample: with the defendant holding the floor — a
speaker matching neither node — the DebateStart node still rewrites the
state (it has no speaker guard) and the ContinueDecision router still
increments the round count; neither is a no-op pass-through, refuting the
claim for "every node". -/
theorem debate_start_router_no_guard :
    judge.debate_start judgeA { judgeTurnState 0 with speaker := "被告律师" } ≠
      { judgeTurnState 0 with speaker := "被告律师" } ∧
    (judge.judge_should_continue constOracle
        { judgeTurnState 0 with speaker := "被告律师" }).2 ≠
      { judgeTurnState 0 with speaker := "被告律师" } := by
  decide

/-- Claim C10: in every reachable session state, the human-input flag is
set exactly when a pending role is recorded — the operations set
`requires_human_input = true` only together with
`pending_input_role = humanRole` and clear both together. -/
theorem human_input_flag_invariant (g : Oracle) (sess : Session)
    (h : Reachable g sess) :
    sess.requires_human_input = true ↔ sess.pending_input_role ≠ none := by
  induction h with
  | new hr => simp [CourtSession.new]
  | has_init s0 ci ev s1 _ hok ih =>
      unfold CourtSession.initialize at hok
      split at hok <;> cases hok
      · simpa using ih
      · simpa using ih
  | has_advance s0 s1 _ hok ih =>
      unfold CourtSession.advance_debate at hok
      split at hok
      · cases hok
      · split at hok
        · cases hok
        · split at hok
          · cases hok
            simpa using ih
          · split at hok
            · cases hok
              simpa using ih
            · split at hok
              · split at hok
                · rename_i hhum
                  cases hok
                  simp only [ne_eq]
                  constructor
                  · intro _ hcon
                    rw [hcon] at hhum
                    exact Option.noConfusion hhum
                  · intro _
                    trivial
                · cases hok
                  simpa using ih
              · split at hok
                · rename_i hhum
                  cases hok
                  simp only [ne_eq]
                  constructor
                  · intro _ hcon
                    rw [hcon] at hhum
                    exact Option.noConfusion hhum
                  · intro _
                    trivial
                · cases hok
                  simpa using ih
              · cases hok
  | has_submit s0 c s1 _ hok ih =>
      unfold CourtSession.submit_human_input at hok
      split at hok
      · cases hok
      · split at hok
        · cases hok
        · split at hok
          · cases hok
            simp
          · cases hok
            simp
          · cases hok

/-- Witness for C10 at a concrete reachable session: a fresh session. -/
theorem human_input_flag_invariant_witness :
    (CourtSession.new none).requires_human_input = true ↔
      (CourtSession.new none).pending_input_role ≠ none :=
  human_input_flag_invariant constOracle (CourtSession.new none)
    (Reachable.new none)

/-- Claim C2: whenever the executor is suspended at a node (stepping it
with no resume value suspends and leaves the thread at that node with the
state untouched), stepping it with human content c re-enters exactly that
node and appends exactly one human-origin message whose content is the
supplied text, and both the next node and the resulting speaker and phase
are exactly those the generated branch (the same node run with no human
role) would have produced. -/
theorem resume_matches_generated_branch (g : Oracle) (n : Node)
    (s : CourtState) (p c : String)
    (hsusp : step g none n s = .suspended p n s) :
    ∃ nm next s' s'',
      step g (some c) n s = .stepped next s' ∧
      step g none n { s with human_role := none } = .stepped next s'' ∧
      s'.messages = s.messages ++ [Message.human c nm] ∧
      s''.speaker = s'.speaker ∧ s''.phase = s'.phase := by
  cases n
  case debate_start => simp [step] at hsusp
  case judge_should_continue => simp [step] at hsusp
  case finished => simp [step] at hsusp
  case plaintiff_statement =>
    by_cases h1 : s.speaker = "原告律师"
    · by_cases h2 : s.human_role = some "原告律师"
      · refine ⟨some plaintiffB.tag, .defendant_reply,
          { s with
            messages := s.messages ++ [Message.human c (some plaintiffB.tag)]
            speaker := "被告律师" },
          { s with
            human_role := none
            messages := s.messages ++
              [Message.chat (g.genStatement s.messages) (some plaintiffB.tag)
                "assistant"]
            speaker := "被告律师" },
          ?_, ?_, rfl, rfl, rfl⟩
        · simp [step, plaintiff.plaintiff_statement, h1, h2]
        · simp [step, plaintiff.plaintiff_statement, h1]
      · exfalso; simp [step, plaintiff.plaintiff_statement, h1, h2] at hsusp
    · exfalso; simp [step, plaintiff.plaintiff_statement, h1] at hsusp
  case plaintiff_argue =>
    by_cases h1 : s.speaker = "原告律师"
    · by_cases h2 : s.human_role = some "原告律师"
      · refine ⟨some plaintiffB.tag, .defendant_argue,
          { s with
            messages := s.messages ++ [Message.human c (some plaintiffB.tag)]
            speaker := "被告律师" },
          { s with
            human_role := none
            messages := s.messages ++
              [Message.chat (g.genArguePl s.messages) (some plaintiffB.tag)
                "assistant"]
            speaker := "被告律师" },
          ?_, ?_, rfl, rfl, rfl⟩
        · simp [step, plaintiff.plaintiff_argue, h1, h2]
        · simp [step, plaintiff.plaintiff_argue, h1]
      · exfalso; simp [step, plaintiff.plaintiff_argue, h1, h2] at hsusp
    · exfalso; simp [step, plaintiff.plaintiff_argue, h1] at hsusp
  case defendant_reply =>
    by_cases h1 : s.speaker = "被告律师"
    · by_cases h2 : s.human_role = some "被告律师"
      · refine ⟨some defendantC.tag, .judge_summary,
          { s with
            messages := s.messages ++ [Message.human c (some defendantC.tag)]
            speaker := "法官" },
          { s with
            human_role := none
            messages := s.messages ++
              [Message.chat (g.genDemurrer s.messages) (some defendantC.tag)
                "assistant"]
            speaker := "法官" },
          ?_, ?_, rfl, rfl, rfl⟩
        · simp [step, defendant.defendant_reply, h1, h2]
        · simp [step, defendant.defendant_reply, h1]
      · exfalso; simp [step, defendant.defendant_reply, h1, h2] at hsusp
    · exfalso; simp [step, defendant.defendant_reply, h1] at hsusp
  case defendant_argue =>
    by_cases h1 : s.speaker = "被告律师"
    · by_cases h2 : s.human_role = some "被告律师"
      · refine ⟨some defendantC.tag, .judge_should_continue,
          { s with
            messages := s.messages ++ [Message.human c (some defendantC.tag)]
            speaker := "法官" },
          { s with
            human_role := none
            messages := s.messages ++
              [Message.chat (g.genArgueDe s.messages) (some defendantC.tag)
                "assistant"]
            speaker := "法官" },
          ?_, ?_, rfl, rfl, rfl⟩
        · simp [step, defendant.defendant_argue, h1, h2]
        · simp [step, defendant.defendant_argue, h1]
      · exfalso; simp [step, defendant.defendant_argue, h1, h2] at hsusp
    · exfalso; simp [step, defendant.defendant_argue, h1] at hsusp
  case judge_summary =>
    by_cases h1 : s.speaker = "法官"
    · by_cases h2 : s.human_role = some "法官"
      · refine ⟨some judgeA.tag, .plaintiff_argue,
          { s with
            messages := s.messages ++ [Message.human c (some judgeA.tag)]
            speaker := "原告律师"
            phase := "交叉质证" },
          { s with
            human_role := none
            messages := s.messages ++
              [Message.chat (g.genSummary s.messages) (some judgeA.tag)
                "assistant"]
            speaker := "原告律师"
            phase := "交叉质证" },
          ?_, ?_, rfl, rfl, rfl⟩
        · simp [step, judge.judge_summary, h1, h2]
        · simp [step, judge.judge_summary, h1]
      · exfalso; simp [step, judge.judge_summary, h1, h2] at hsusp
    · exfalso; simp [step, judge.judge_summary, h1] at hsusp
  case judge_verdict =>
    by_cases h1 : s.speaker = "法官"
    · by_cases h2 : s.human_role = some "法官"
      · refine ⟨some judgeA.tag, .finished,
          { s with
            messages := s.messages ++ [Message.human c (some judgeA.tag)]
            phase := "休庭小结" },
          { s with
            human_role := none
            messages := s.messages ++
              [Message.chat (g.genVerdict s.messages) none judgeA.tag]
            phase := "休庭小结" },
          ?_, ?_, rfl, rfl, rfl⟩
        · simp [step, judge.judge_verdict, h1, h2]
        · simp [step, judge.judge_verdict, h1]
      · exfalso; simp [step, judge.judge_verdict, h1, h2] at hsusp
    · exfalso; simp [step, judge.judge_verdict, h1] at hsusp

/-- A concrete suspension point: a human plaintiff about to give the
opening statement. -/
def humanPlaintiffState : CourtState :=
  { judgeTurnState 0 with
    speaker := "原告律师"
    human_role := some "原告律师"
    phase := "开庭阶段" }

/-- Witness for C2 at a concrete suspension. -/
theorem resume_matches_generated_branch_witness :
    ∃ nm next s' s'',
      step constOracle (some "我方请求法庭支持全部诉讼请求") .plaintiff_statement
        humanPlaintiffState = .stepped next s' ∧
      step constOracle none .plaintiff_statement
        { humanPlaintiffState with human_role := none } = .stepped next s'' ∧
      s'.messages = humanPlaintiffState.messages ++
        [Message.human "我方请求法庭支持全部诉讼请求" nm] ∧
      s''.speaker = s'.speaker ∧ s''.phase = s'.phase :=
  resume_matches_generated_branch constOracle .plaintiff_statement
    humanPlaintiffState "现在是开庭阶段，请你作出有力的开庭指控陈述吧！"
    "我方请求法庭支持全部诉讼请求" (by rfl)

/-- Claim C4 counterexample: with an input pending for the judge
(`pending_input_role = 法官`), submitting content for the different role
原告律师 succeeds instead of failing — the service never validates the
supplied role. -/
theorem submit_wrong_role_accepted :
    suspendedJudgeSession.pending_input_role = some "法官" ∧
    ("原告律师" : String) ≠ "法官" ∧
    isOkResult (CourtService.submit_human_input constOracle
      [("court_1", suspendedJudgeSession)] "court_1" "原告律师"
      "请双方围绕借款事实继续辩论") = true := by
  refine ⟨rfl, by decide, ?_⟩
  rfl

/-- Claim C4 (amended): submitHumanInput fails with InvalidResumeState
whenever no input is pending, but the supplied role is ignored entirely —
two calls that differ only in the role argument behave identically, so a
role different from pendingRole is accepted whenever any role is. -/
theorem submit_role_ignored (g : Oracle) (sessions : List (String × Session))
    (sid role other_role content : String) :
    (∀ sess, sessions.lookup sid = some sess →
        sess.requires_human_input = false →
        CourtService.submit_human_input g sessions sid role content =
          .error .invalidResumeState) ∧
    CourtService.submit_human_input g sessions sid role content =
      CourtService.submit_human_input g sessions sid other_role content := by
  constructor
  · intro sess hl hreq
    simp [CourtService.submit_human_input, hl,
      CourtSession.submit_human_input, hreq]
  · rfl

/-- Witness for C4 (amended): submitting to a fresh session with no
pending input fails with InvalidResumeState. -/
theorem submit_role_ignored_witness :
    CourtService.submit_human_input constOracle
      [("c1", CourtSession.new none)] "c1" "法官" "判决如下" =
      .error .invalidResumeState :=
  (submit_role_ignored constOracle [("c1", CourtSession.new none)] "c1"
    "法官" "原告律师" "判决如下").1 (CourtSession.new none) rfl rfl

/-- The initialization run of a session whose human plays the judge. -/
def humanJudgeInit : Except CourtError Session :=
  CourtSession.initialize constOracle (CourtSession.new (some "法官"))
    "张三于2023年1月向李四借款10万元" []

/-- Claim C5 failing run: with `humanRole = 法官`, initialization suspends
at the judge's first node (`judge_summary`, immediately after the first
`defendant_reply` completed, with the judge holding the floor), yet the
session reports `requires_human_input = false` and no pending role — and a
subsequent advance call is a no-op that still leaves both unset, because
its speaker-vs-human-role test skips the branch that would set them. -/
theorem human_judge_not_flagged :
    humanJudgeInit.map (fun sess =>
      (sess.pending, sess.requires_human_input, sess.pending_input_role,
        sess.state.map CourtState.speaker)) =
      .ok (.judge_summary, false, none, some "法官") ∧
    humanJudgeInit.bind
        (fun sess => CourtSession.advance_debate constOracle sess) =
      humanJudgeInit := by
  exact ⟨rfl, rfl⟩

/-! Helper lemmas for symbolic execution of one `invoke` in pure-AI mode. -/

theorem run_succ (g : Oracle) (f : Nat) (r : Option String) (n : Node)
    (s : CourtState) :
    run g (f + 1) r n s =
      (match step g r n s with
       | .suspended p pn s1 => .suspended p pn s1
       | .finished s1 => .completed s1
       | .stepped n1 s1 => run g f none n1 s1) := rfl

theorem run_succ_stepped (g : Oracle) (f : Nat) (r : Option String)
    (n : Node) (s : CourtState) (n1 : Node) (s1 : CourtState)
    (h : step g r n s = .stepped n1 s1) :
    run g (f + 1) r n s = run g f none n1 s1 := by
  rw [run_succ, h]

theorem step_debate_start (g : Oracle) (s : CourtState) :
    step g none .debate_start s =
      .stepped .plaintiff_statement (judge.debate_start judgeA s) := rfl

/-- The merged Turn State after the generated branch of the
plaintiff-statement node. -/
def aiStatement (g : Oracle) (s : CourtState) : CourtState :=
  { s with
    messages := s.messages ++
      [Message.chat (g.genStatement s.messages) (some plaintiffB.tag)
        "assistant"]
    speaker := "被告律师" }

/-- The merged Turn State after the generated branch of the
defendant-reply node. -/
def aiReply (g : Oracle) (s : CourtState) : CourtState :=
  { s with
    messages := s.messages ++
      [Message.chat (g.genDemurrer s.messages) (some defendantC.tag)
        "assistant"]
    speaker := "法官" }

/-- The merged Turn State after the generated branch of the judge-summary
node. -/
def aiSummary (g : Oracle) (s : CourtState) : CourtState :=
  { s with
    messages := s.messages ++
      [Message.chat (g.genSummary s.messages) (some judgeA.tag) "assistant"]
    speaker := "原告律师"
    phase := "交叉质证" }

/-- The merged Turn State after the generated branch of the
plaintiff-argue node. -/
def aiPargue (g : Oracle) (s : CourtState) : CourtState :=
  { s with
    messages := s.messages ++
      [Message.chat (g.genArguePl s.messages) (some plaintiffB.tag)
        "assistant"]
    speaker := "被告律师" }

/-- The merged Turn State after the generated branch of the
defendant-argue node. -/
def aiDargue (g : Oracle) (s : CourtState) : CourtState :=
  { s with
    messages := s.messages ++
      [Message.chat (g.genArgueDe s.messages) (some defendantC.tag)
        "assistant"]
    speaker := "法官" }

/-- The merged Turn State after the generated branch of the judge-verdict
node. -/
def aiVerdict (g : Oracle) (s : CourtState) : CourtState :=
  { s with
    messages := s.messages ++ [Message.chat (g.genVerdict s.messages) none judgeA.tag]
    phase := "休庭小结" }

/-- The round controller's Turn State update. -/
def roundBump (s : CourtState) : CourtState := { s with rounds := s.rounds + 1 }

theorem step_statement_ai (g : Oracle) (s : CourtState)
    (hsp : s.speaker = "原告律师") (hh : s.human_role = none) :
    step g none .plaintiff_statement s =
      .stepped .defendant_reply (aiStatement g s) := by
  simp [step, plaintiff.plaintiff_statement, aiStatement, hsp, hh]

theorem step_reply_ai (g : Oracle) (s : CourtState)
    (hsp : s.speaker = "被告律师") (hh : s.human_role = none) :
    step g none .defendant_reply s = .stepped .judge_summary (aiReply g s) := by
  simp [step, defendant.defendant_reply, aiReply, hsp, hh]

theorem step_summary_ai (g : Oracle) (s : CourtState)
    (hsp : s.speaker = "法官") (hh : s.human_role = none) :
    step g none .judge_summary s = .stepped .plaintiff_argue (aiSummary g s) := by
  simp [step, judge.judge_summary, aiSummary, hsp, hh]

theorem step_pargue_ai (g : Oracle) (s : CourtState)
    (hsp : s.speaker = "原告律师") (hh : s.human_role = none) :
    step g none .plaintiff_argue s = .stepped .defendant_argue (aiPargue g s) := by
  simp [step, plaintiff.plaintiff_argue, aiPargue, hsp, hh]

theorem step_dargue_ai (g : Oracle) (s : CourtState)
    (hsp : s.speaker = "被告律师") (hh : s.human_role = none) :
    step g none .defendant_argue s =
      .stepped .judge_should_continue (aiDargue g s) := by
  simp [step, defendant.defendant_argue, aiDargue, hsp, hh]

theorem step_verdict_ai (g : Oracle) (s : CourtState)
    (hsp : s.speaker = "法官") (hh : s.human_role = none) :
    step g none .judge_verdict s = .stepped .finished (aiVerdict g s) := by
  simp [step, judge.judge_verdict, aiVerdict, hsp, hh]

theorem step_router (g : Oracle) (s : CourtState) :
    step g none .judge_should_continue s =
      .stepped
        (if (judge.judge_should_continue g s).1 = "end" then .judge_verdict
         else .judge_summary)
        (judge.judge_should_continue g s).2 := rfl

theorem step_at_end (g : Oracle) (r : Option String) (s : CourtState) :
    step g r .finished s = .finished s := rfl

theorem judge_should_continue_state (g : Oracle) (s : CourtState) :
    (judge.judge_should_continue g s).2 = roundBump s := by
  rw [judge_should_continue_def]
  unfold roundBump
  split <;> rfl

/-- One debate loop in pure-AI mode, by induction on the remaining rounds:
from the judge-summary node with the judge holding the floor and no human,
the run always completes with the ended phase and at most 3 rounds — the
router either answers "end" early (the run moves to the verdict at once) or
loops until the hard cap forces "end" — and with exactly 3 rounds whenever
the generated decision never sanitises to "end". -/
theorem run_ai_loop (g : Oracle) :
    ∀ (k : Nat) (s : CourtState) (f : Nat), s.speaker = "法官" →
      s.human_role = none → s.rounds + k = 2 → 4 * k + 7 ≤ f →
      ∃ s1, run g f none .judge_summary s = .completed s1 ∧
        s1.phase = "休庭小结" ∧ s1.rounds ≤ 3 ∧
        ((∀ q, sanitizeDecision (g.genDecision q) ≠ "end") →
          s1.rounds = 3) := by
  intro k
  induction k with
  | zero =>
      intro s f hsp hh hr hf
      obtain ⟨m, rfl⟩ : ∃ m, f = (m + 6) + 1 := ⟨f - 7, by omega⟩
      rw [run_succ_stepped g (m + 6) none .judge_summary s _ _
        (step_summary_ai g s hsp hh)]
      rw [show m + 6 = (m + 5) + 1 from rfl,
        run_succ_stepped g (m + 5) none .plaintiff_argue (aiSummary g s) _ _
          (step_pargue_ai g (aiSummary g s) rfl hh)]
      rw [show m + 5 = (m + 4) + 1 from rfl,
        run_succ_stepped g (m + 4) none .defendant_argue
          (aiPargue g (aiSummary g s)) _ _
          (step_dargue_ai g (aiPargue g (aiSummary g s)) rfl hh)]
      rw [show m + 4 = (m + 3) + 1 from rfl,
        run_succ_stepped g (m + 3) none .judge_should_continue
          (aiDargue g (aiPargue g (aiSummary g s))) _ _
          (step_router g (aiDargue g (aiPargue g (aiSummary g s))))]
      rw [judge_should_continue_forced_end g
          (aiDargue g (aiPargue g (aiSummary g s)))
          (show 2 ≤ s.rounds by omega),
        if_pos rfl, judge_should_continue_state]
      rw [show m + 3 = (m + 2) + 1 from rfl,
        run_succ_stepped g (m + 2) none .judge_verdict
          (roundBump (aiDargue g (aiPargue g (aiSummary g s)))) _ _
          (step_verdict_ai g
            (roundBump (aiDargue g (aiPargue g (aiSummary g s)))) rfl hh)]
      refine ⟨aiVerdict g (roundBump (aiDargue g (aiPargue g (aiSummary g s)))),
        ?_, rfl, ?_, fun _ => ?_⟩
      · rw [show m + 2 = (m + 1) + 1 from rfl, run_succ, step_at_end]
      · show s.rounds + 1 ≤ 3
        omega
      · show s.rounds + 1 = 3
        omega
  | succ k ih =>
      intro s f hsp hh hr hf
      obtain ⟨m, rfl⟩ : ∃ m, f = (m + 3) + 1 := ⟨f - 4, by omega⟩
      rw [run_succ_stepped g (m + 3) none .judge_summary s _ _
        (step_summary_ai g s hsp hh)]
      rw [show m + 3 = (m + 2) + 1 from rfl,
        run_succ_stepped g (m + 2) none .plaintiff_argue (aiSummary g s) _ _
          (step_pargue_ai g (aiSummary g s) rfl hh)]
      rw [show m + 2 = (m + 1) + 1 from rfl,
        run_succ_stepped g (m + 1) none .defendant_argue
          (aiPargue g (aiSummary g s)) _ _
          (step_dargue_ai g (aiPargue g (aiSummary g s)) rfl hh)]
      rw [run_succ_stepped g m none .judge_should_continue
          (aiDargue g (aiPargue g (aiSummary g s))) _ _
          (step_router g (aiDargue g (aiPargue g (aiSummary g s))))]
      by_cases hd :
        (judge.judge_should_continue g
          (aiDargue g (aiPargue g (aiSummary g s)))).1 = "end"
      · -- the generated decision ends the debate early: straight to verdict
        rw [if_pos hd, judge_should_continue_state]
        obtain ⟨n, rfl⟩ : ∃ n, m = (n + 1) + 1 := ⟨m - 2, by omega⟩
        rw [run_succ_stepped g (n + 1) none .judge_verdict
          (roundBump (aiDargue g (aiPargue g (aiSummary g s)))) _ _
          (step_verdict_ai g
            (roundBump (aiDargue g (aiPargue g (aiSummary g s)))) rfl hh)]
        refine ⟨aiVerdict g
            (roundBump (aiDargue g (aiPargue g (aiSummary g s)))),
          ?_, rfl, ?_, fun hg => ?_⟩
        · rw [run_succ, step_at_end]
        · show s.rounds + 1 ≤ 3
          omega
        · exfalso
          rw [judge_should_continue_below_cap g
            (aiDargue g (aiPargue g (aiSummary g s)))
            (show s.rounds < 2 by omega)] at hd
          exact hg _ hd
      · rw [if_neg hd, judge_should_continue_state]
        exact ih (roundBump (aiDargue g (aiPargue g (aiSummary g s)))) m rfl hh
          (show s.rounds + 1 + k = 2 by omega) (by omega)

/-- Claim C7: a session created with no human role always runs to
completion — for every generated-decision behavior — within the bounded
initialization invoke (at most 16 node executions, 3 debate rounds of the
4-node loop plus the fixed prefix and verdict, under the budget of 25): the
session ends with phase 休庭小结 and roundCount at most 3, and with exactly
3 rounds whenever the generated decision never sanitises to "end"; every
subsequent advance call returns successfully with the session unchanged. -/
theorem ai_session_terminates_three_rounds (g : Oracle) (ci : String)
    (ev : List Evidence) :
    ∃ sess st,
      CourtSession.initialize g (CourtSession.new none) ci ev = .ok sess ∧
      sess.pending = .finished ∧
      sess.state = some st ∧
      st.phase = "休庭小结" ∧
      st.rounds ≤ 3 ∧
      ((∀ q, sanitizeDecision (g.genDecision q) ≠ "end") → st.rounds = 3) ∧
      CourtSession.advance_debate g sess = .ok sess := by
  obtain ⟨s1, hrun, hph, hle, hr3⟩ :
      ∃ s1, run g 22 none .judge_summary
          (aiReply g (aiStatement g
            (judge.debate_start judgeA (initialState ci ev none)))) =
          .completed s1 ∧ s1.phase = "休庭小结" ∧ s1.rounds ≤ 3 ∧
          ((∀ q, sanitizeDecision (g.genDecision q) ≠ "end") →
            s1.rounds = 3) := by
    refine run_ai_loop g 2
      (aiReply g (aiStatement g
        (judge.debate_start judgeA (initialState ci ev none)))) 22 rfl rfl ?_
      (by omega)
    show 0 + 2 = 2
    rfl
  have hinvoke : invoke g none .debate_start (initialState ci ev none) =
      .completed s1 := by
    unfold invoke
    rw [show (25 : Nat) = 24 + 1 from rfl,
      run_succ_stepped g 24 none .debate_start (initialState ci ev none) _ _
        (step_debate_start g (initialState ci ev none))]
    rw [show (24 : Nat) = 23 + 1 from rfl,
      run_succ_stepped g 23 none .plaintiff_statement
        (judge.debate_start judgeA (initialState ci ev none)) _ _
        (step_statement_ai g
          (judge.debate_start judgeA (initialState ci ev none)) rfl rfl)]
    rw [show (23 : Nat) = 22 + 1 from rfl,
      run_succ_stepped g 22 none .defendant_reply
        (aiStatement g (judge.debate_start judgeA (initialState ci ev none)))
        _ _
        (step_reply_ai g
          (aiStatement g (judge.debate_start judgeA (initialState ci ev none)))
          rfl rfl)]
    exact hrun
  refine ⟨{ CourtSession.new none with state := some s1, pending := .finished },
    s1, ?_, rfl, rfl, hph, hle, hr3, ?_⟩
  · unfold CourtSession.initialize
    rw [show (CourtSession.new none).human_role = none from rfl, hinvoke]
    rfl
  · unfold CourtSession.advance_debate
    simp [CourtSession.new, hph]

/-- Witness for C7: the constant interface always answers "continue", so
the embedded never-"end" hypothesis is discharged and the session ends with
exactly 3 rounds. -/
theorem ai_session_terminates_three_rounds_witness :
    ∃ sess st,
      CourtSession.initialize constOracle (CourtSession.new none)
        "A向B借款10万元" [] = .ok sess ∧
      sess.pending = .finished ∧
      sess.state = some st ∧
      st.phase = "休庭小结" ∧
      st.rounds = 3 ∧
      CourtSession.advance_debate constOracle sess = .ok sess := by
  obtain ⟨sess, st, h1, h2, h3, h4, _, h6, h7⟩ :=
    ai_session_terminates_three_rounds constOracle "A向B借款10万元" []
  exact ⟨sess, st, h1, h2, h3, h4,
    h6 (fun _ => (by decide : sanitizeDecision "continue" ≠ "end")), h7⟩

end Courtroom
